import Mathlib

/-!
Shallow embedding of the aranGO client SDK surface: the paginated cursor
iterator (cursor.go, package arango) and the document existence/staleness
checks (document.go, package aranGO).

Modelling conventions:
- Go `int` fields that only ever hold non-negative values assigned by the
  code itself (`Index`, `max`) are `Nat`; status codes and counters coming
  from the wire are `Int`.
- A Go slice index out of range is a runtime panic; functions that index the
  batch return a `GoOutcome` whose `panic` constructor marks that event.
- The external transport (`db.send` / `db.get`) and the JSON codec
  (`json.Marshal` / `json.Unmarshal`) are not part of the reviewed source;
  they are modelled from the spec as oracles supplied to each operation.
- The `db` handle stored in the Go structs is passed explicitly to each
  operation instead, so that states stay first-order data.
-/

namespace ArangoSpec

/-- Outcome of running a Go function that may panic (index out of range on a
slice access). `ok` carries the returned values and the post state. -/
inductive GoOutcome (α : Type) where
  | ok : α → GoOutcome α
  | panic : GoOutcome α
deriving DecidableEq, Repr

/-- Modelled from the spec: the JSON-tagged payload of a cursor HTTP response
(`{id, result, hasMore, count, error, errorMessage, code}`) that the external
transport unmarshals into the cursor response target. Informational fields the
reviewed code never reads (`extra`, `cached`, `time`) are omitted. -/
structure CursorPayload (Row : Type) where
  id : String
  result : List Row
  hasMore : Bool
  count : Int
  error : Bool
  errorMessage : String
  code : Int
deriving DecidableEq, Repr

/-- Modelled from the spec: one result of the external transport call
`send(resourceKind, identifier, httpMethod, ...) → (response{status}, error)`.
The response always carries a status; `err` is the transport error value
(network or serialization failure). -/
structure SendOutcome (Row : Type) where
  status : Int
  payload : CursorPayload Row
  err : Option String
deriving DecidableEq, Repr

/-- Modelled from the spec: the opaque `Database` collaborator as used by the
cursor operations. `send` is keyed by resource kind, identifier and HTTP
method; headers and request body do not influence the modelled outcome. -/
structure CursorDb (Row : Type) where
  send : String → String → String → SendOutcome Row

/-- Modelled from the spec: outcome of `db.get` as used by the Document
checks. The response target there is nil, so only status and error matter. -/
structure GetOutcome where
  status : Int
  err : Option String
deriving DecidableEq, Repr

/-- Modelled from the spec: the opaque `Database` collaborator as used by the
Document checks (`get(resourceKind, identifier, httpMethod, ...)`). -/
structure DocDb where
  get : String → String → String → GetOutcome

/-- Modelled from the spec: the JSON codec used for row decoding
(`json.Marshal` of one row or of the whole batch to bytes, `json.Unmarshal`
of bytes into the caller target; unmarshal returns `some e` on a shape
mismatch and `none` on success). -/
structure Env (Row : Type) where
  marshal : Row → Except String String
  unmarshal : String → Option String
  marshalBatch : List Row → Except String String
  unmarshalBatch : String → Option String

/-- The `Cursor` struct of cursor.go. `Index` and `max` are json:"-" /
unexported, so response unmarshalling never touches them; `max` is never
assigned anywhere in the package and therefore keeps its zero value.
Fields no modelled operation reads (`Data`, `Cached`, `Time`) are omitted. -/
structure Cursor (Row : Type) where
  Id : String
  Index : Nat
  Result : List Row
  More : Bool
  Amount : Int
  Err : Bool
  ErrMsg : String
  Code : Int
  max : Nat
deriving DecidableEq, Repr

variable {Row : Type}

/-- `NewCursor(db)`: returns nil when `db` is nil, otherwise a cursor with
every field at its zero value (the db handle is modelled as an explicit
argument to each operation rather than a stored field). -/
def NewCursor (db : Option (CursorDb Row)) : Option (Cursor Row) :=
  match db with
  | none => none
  | some _ => some ⟨"", 0, [], false, 0, false, "", 0, 0⟩

/-- Modelled from the spec: `send(..., c, c)` with the cursor as response
target replaces the cursor's JSON-tagged fields with the response payload
("replaces internal batch state with the response"); `Index` and `max` are
json:"-" / unexported and stay. The spec describes this replacement for the
successful (status 200) fetch, so callers apply it exactly there. -/
def applyPayload (c : Cursor Row) (p : CursorPayload Row) : Cursor Row :=
  { c with Id := p.id, Result := p.result, More := p.hasMore,
           Amount := p.count, Err := p.error, ErrMsg := p.errorMessage,
           Code := p.code }

/-- `func (c Cursor) HasMore() bool` -/
def Cursor.HasMore (c : Cursor Row) : Bool := c.More

/-- `func (c Cursor) Count() int` -/
def Cursor.Count (c : Cursor Row) : Int := c.Amount

/-- `func (c Cursor) Error() bool` -/
def Cursor.ErrorFlag (c : Cursor Row) : Bool := c.Err

/-- `func (c Cursor) ErrCode() int` -/
def Cursor.ErrCode (c : Cursor Row) : Int := c.Code

/-- Result of `Delete`: the returned pair, the post state and the number of
transport calls made. -/
structure DeleteResult (Row : Type) where
  deleted : Bool
  err : Option String
  state : Cursor Row
  sends : Nat
deriving DecidableEq, Repr

/-- `func (c *Cursor) Delete() (bool, error)`: no-op on empty id; otherwise
one DELETE; transport error propagates; 202 ↦ true, 404 and any other
status ↦ false. -/
def Cursor.Delete (c : Cursor Row) (db : CursorDb Row) : DeleteResult Row :=
  if c.Id = "" then ⟨false, none, c, 0⟩
  else
    let s := db.send "cursor" c.Id "DELETE"
    match s.err with
    | some e => ⟨false, some e, c, 1⟩
    | none =>
      let c' := if s.status = 200 then applyPayload c s.payload else c
      if s.status = 202 then ⟨true, none, c', 1⟩
      else if s.status = 404 then ⟨false, none, c', 1⟩
      else ⟨false, none, c', 1⟩

/-- The subset of `reflect.Kind` relevant to `FetchBatch`'s target check. -/
inductive GoKind where
  | slice
  | array
  | struct_
  | map_
  | int_
  | string_
  | ptr
  | bool_
  | interface_
deriving DecidableEq, Repr

/-- Result of `FetchBatch`: returned error, post state, number of transport
calls and number of whole-batch decode attempts. -/
structure FetchBatchResult (Row : Type) where
  err : Option String
  state : Cursor Row
  sends : Nat
  decodes : Nat
deriving DecidableEq, Repr

/-- `func (c *Cursor) FetchBatch(r interface{}) error`: rejects non
slice/array targets before any decoding or transport call; bulk-decodes the
current batch; when `HasMore()`, issues one PUT and — following the code —
checks `res.Status() == 200` (returning nil) BEFORE checking the transport
error. `kind` is `reflect.ValueOf(r).Elem().Kind()`. -/
def Cursor.FetchBatch (c : Cursor Row) (env : Env Row) (db : CursorDb Row)
    (kind : GoKind) : FetchBatchResult Row :=
  if kind ≠ GoKind.slice ∧ kind ≠ GoKind.array then
    ⟨some "Container must be Slice of array kind", c, 0, 0⟩
  else
    match env.marshalBatch c.Result with
    | .error e => ⟨some e, c, 0, 1⟩
    | .ok b =>
      match env.unmarshalBatch b with
      | some e => ⟨some e, c, 0, 1⟩
      | none =>
        if c.HasMore then
          let s := db.send "cursor" c.Id "PUT"
          if s.status = 200 then
            ⟨none, (if s.err = none then applyPayload c s.payload else c), 1, 1⟩
          else
            match s.err with
            | some e => ⟨some e, c, 1, 1⟩
            | none => ⟨none, c, 1, 1⟩
        else ⟨none, c, 0, 1⟩

/-- Result of `FetchOne`: the returned bool, the row decoded into the caller
target on this call (if any), the post state and the transport call count. -/
structure FetchOneResult (Row : Type) where
  ok : Bool
  decoded : Option Row
  state : Cursor Row
  sends : Nat
deriving DecidableEq, Repr

/-- `func (c *Cursor) FetchOne(r interface{}) bool`: when `Index > max`
(and `max` is never assigned, hence 0) either refetches (on `More`) or
reports exhaustion; otherwise accesses `c.Result[c.Index]` without a bounds
check (panic when out of range), decodes it — the `json.Marshal` error is
discarded by the code, `json.Unmarshal` then runs on nil bytes — and
increments `Index` before checking the decode error. -/
def Cursor.FetchOne (c : Cursor Row) (env : Env Row) (db : CursorDb Row) :
    GoOutcome (FetchOneResult Row) :=
  if c.Index > c.max then
    if c.More then
      let s := db.send "cursor" c.Id "PUT"
      match s.err with
      | some _ => .ok ⟨false, none, c, 1⟩
      | none =>
        if s.status = 200 then
          .ok ⟨true, none, { applyPayload c s.payload with Index := 0 }, 1⟩
        else .ok ⟨false, none, c, 1⟩
    else .ok ⟨false, none, c, 0⟩
  else
    match c.Result[c.Index]? with
    | none => .panic
    | some row =>
      let b := match env.marshal row with
               | .ok b => b
               | .error _ => ""
      match env.unmarshal b with
      | some _ => .ok ⟨false, none, { c with Index := c.Index + 1 }, 0⟩
      | none => .ok ⟨true, some row, { c with Index := c.Index + 1 }, 0⟩

/-- Result of `FetchNext`: the returned pair, the row decoded into the caller
target (if any), the post state and the transport call count. -/
structure FetchNextResult (Row : Type) where
  ok : Bool
  err : Option String
  decoded : Option Row
  state : Cursor Row
  sends : Nat
deriving DecidableEq, Repr

/-- The decode tail of `FetchNext`: access `c.Result[c.Index]` (panic when
out of range), check the marshal error, then the unmarshal error, then
increment `Index` and return `(true, nil)`. -/
def fetchNextDecode (env : Env Row) (c : Cursor Row) (sends : Nat) :
    GoOutcome (FetchNextResult Row) :=
  match c.Result[c.Index]? with
  | none => .panic
  | some row =>
    match env.marshal row with
    | .error e => .ok ⟨false, some e, none, c, sends⟩
    | .ok b =>
      match env.unmarshal b with
      | some e => .ok ⟨false, some e, none, c, sends⟩
      | none => .ok ⟨true, none, some row, { c with Index := c.Index + 1 }, sends⟩

/-- `func (c *Cursor) FetchNext(r interface{}) (bool, error)`: exhaustion
check `Index >= len(Result)`; on `More` issues one PUT, propagating the
transport error, resetting `Index` to 0 on status 200 and otherwise returning
an error naming the status code; then falls through to decode the row at
`Index`. -/
def Cursor.FetchNext (c : Cursor Row) (env : Env Row) (db : CursorDb Row) :
    GoOutcome (FetchNextResult Row) :=
  if c.Index ≥ c.Result.length then
    if c.More then
      let s := db.send "cursor" c.Id "PUT"
      match s.err with
      | some e => .ok ⟨false, some e, none, c, 1⟩
      | none =>
        if s.status = 200 then
          fetchNextDecode env { applyPayload c s.payload with Index := 0 } 1
        else
          .ok ⟨false,
               some ("Cursor batch request returned status code of "
                      ++ toString s.status),
               none, c, 1⟩
    else .ok ⟨false, none, none, c, 0⟩
  else fetchNextDecode env c 0

/-- `func (c *Cursor) Next(r interface{}) bool`: when `Index == max` returns
false unchanged; otherwise increments `Index` and returns whether it now
equals `max`. The decode target parameter is dead in the code and omitted. -/
def Cursor.Next (c : Cursor Row) : Bool × Cursor Row :=
  if c.Index = c.max then (false, c)
  else
    let c' := { c with Index := c.Index + 1 }
    (c'.Index = c'.max, c')

/-- Number of consecutive calls (bounded by `fuel`) for which `FetchOne`
returns true, starting from `c` and threading the state. -/
def fetchOneStreak (env : Env Row) (db : CursorDb Row) :
    Nat → Cursor Row → Nat
  | 0, _ => 0
  | fuel + 1, c =>
    match c.FetchOne env db with
    | .panic => 0
    | .ok r => if r.ok then fetchOneStreak env db fuel r.state + 1 else 0

/-- Number of consecutive calls (bounded by `fuel`) for which `FetchNext`
returns true, starting from `c` and threading the state. -/
def fetchNextStreak (env : Env Row) (db : CursorDb Row) :
    Nat → Cursor Row → Nat
  | 0, _ => 0
  | fuel + 1, c =>
    match c.FetchNext env db with
    | .panic => 0
    | .ok r => if r.ok then fetchNextStreak env db fuel r.state + 1 else 0

/-- The index invariant of the spec: `0 ≤ index ≤ len(batch)` (the lower
bound is carried by the `Nat` type of `Index`). -/
def cursorInv (c : Cursor Row) : Prop := c.Index ≤ c.Result.length

instance (c : Cursor Row) : Decidable (cursorInv c) := by
  unfold cursorInv; infer_instance

/-- The `Document` struct of document.go. -/
structure Document where
  Id : String
  Rev : String
  Key : String
  Error : Bool
  Message : String
  Code : Int
  Num : Int
deriving DecidableEq, Repr

/-- Go's `strings.Split` specialised to a one-character separator, on the
character list of the string: `n` separators yield `n+1` pieces, empty
pieces included; the empty string yields one empty piece. -/
def goSplitAux (sep : Char) : List Char → List Char → List String
  | [], acc => [String.mk acc.reverse]
  | ch :: cs, acc =>
    if ch = sep then String.mk acc.reverse :: goSplitAux sep cs []
    else goSplitAux sep cs (ch :: acc)

/-- `strings.Split(s, sep)` for a one-character `sep`. -/
def goSplit (s : String) (sep : Char) : List String := goSplitAux sep s.data []

/-- `func NewDocument(id string) (*Document, error)`: splits `id` on "/",
rejects when the split does not have exactly two pieces (the later empty-id
check is dead code: the empty string splits into one piece), and otherwise
returns a document with `Id = id` and `Key` the second piece. -/
def NewDocument (id : String) : Except String Document :=
  let sid := goSplit id '/'
  if sid.length ≠ 2 then .error "Invalid id"
  else if id = "" then .error "Invalid empty id"
  else .ok ⟨id, "", sid.getD 1 "", false, "", 0, 0⟩

/-- Result of a Document check: the returned pair and the number of
transport calls made. -/
structure DocCheckResult where
  result : Bool
  err : Option String
  calls : Nat
deriving DecidableEq, Repr

/-- `func (d *Document) Updated(db *Database) (bool, error)`: precondition
errors on nil db or unset `Id`/`Rev` (no transport call); otherwise one
conditional GET on `id + "?rev=" + rev`; transport error propagates;
404 and 412 ↦ true, any other status ↦ false. -/
def Document.Updated (d : Document) (db : Option DocDb) : DocCheckResult :=
  match db with
  | none => ⟨false, some "Invalid db", 0⟩
  | some dbv =>
    if d.Id = "" ∨ d.Rev = "" then
      ⟨false, some "Document must exist or have valid _rev and _id", 0⟩
    else
      let s := dbv.get "document" (d.Id ++ "?rev=" ++ d.Rev) "GET"
      match s.err with
      | some e => ⟨false, some e, 1⟩
      | none =>
        if s.status = 404 then ⟨true, none, 1⟩
        else if s.status = 412 then ⟨true, none, 1⟩
        else ⟨false, none, 1⟩

/-- `func (d *Document) Exist(db *Database) (bool, error)`: precondition
errors on nil db or unset `Id` (no transport call); otherwise one GET on
`id`; transport error propagates; 404 ↦ false, any other status ↦ true. -/
def Document.Exist (d : Document) (db : Option DocDb) : DocCheckResult :=
  match db with
  | none => ⟨false, some "Invalid db", 0⟩
  | some dbv =>
    if d.Id = "" then
      ⟨false, some "Document must exist or have valid _rev and _id", 0⟩
    else
      let s := dbv.get "document" d.Id "GET"
      match s.err with
      | some e => ⟨false, some e, 1⟩
      | none =>
        if s.status = 404 then ⟨false, none, 1⟩
        else ⟨true, none, 1⟩

/-- `func (d *Document) SetKey(key string) error`: unchecked setter. -/
def Document.SetKey (d : Document) (key : String) : Document × Option String :=
  ({ d with Key := key }, none)

/-- `func (d *Document) SetRev(rev string) error`: unchecked setter. -/
def Document.SetRev (d : Document) (rev : String) : Document × Option String :=
  ({ d with Rev := rev }, none)

/-! Concrete fixtures used by witnesses and counterexamples. -/

/-- A row codec over `Nat` rows on which every decode succeeds. -/
def envNat : Env Nat := ⟨fun _ => .ok "", fun _ => none, fun _ => .ok "", fun _ => none⟩

/-- An empty cursor response payload. -/
def payNat : CursorPayload Nat := ⟨"", [], false, 0, false, "", 0⟩

/-- A transport whose every call succeeds with status `st` and no error. -/
def dbStatus (st : Int) : CursorDb Nat := ⟨fun _ _ _ => ⟨st, payNat, none⟩⟩

/-- A transport that reports a transport error together with a 200 status
(e.g. a response-body serialization failure). -/
def dbBoom : CursorDb Nat := ⟨fun _ _ _ => ⟨200, payNat, some "boom"⟩⟩

/-- A transport that reports a transport error with a 500 status. -/
def dbErr500 : CursorDb Nat := ⟨fun _ _ _ => ⟨500, payNat, some "boom"⟩⟩

/-- A document-side transport answering every get with status `st`. -/
def docDbStatus (st : Int) : DocDb := ⟨fun _ _ _ => ⟨st, none⟩⟩

/-- A document-side transport that fails with a transport error. -/
def docDbErr : DocDb := ⟨fun _ _ _ => ⟨500, some "netfail"⟩⟩

/-- A populated cursor: two rows, no more data, index 0. -/
def cTwoRows : Cursor Nat := ⟨"", 0, [10, 20], false, 0, false, "", 0, 0⟩

/-- A populated cursor: three rows, no more data, index 0. -/
def cThreeRows : Cursor Nat := ⟨"", 0, [3, 5, 7], false, 0, false, "", 0, 0⟩

/-- A cursor with one row, `More = true` and a non-empty id. -/
def cMoreRow : Cursor Nat := ⟨"cid", 0, [7], true, 0, false, "", 0, 0⟩

/-- An exhausted cursor (`Index = len(Result)`) with `More = true`. -/
def cAtEnd : Cursor Nat := ⟨"b", 2, [3, 5], true, 0, false, "", 0, 0⟩

/-- A cursor whose index sits at the end of a one-row batch. -/
def cOverrun : Cursor Nat := ⟨"", 1, [5], false, 0, false, "", 0, 0⟩

/-- A cursor with a non-empty id (for `Delete`). -/
def cWithId : Cursor Nat := ⟨"x", 0, [], false, 0, false, "", 0, 0⟩

/-- A document with id and revision set. -/
def docCK : Document := ⟨"c/k", "r1", "k", false, "", 0, 0⟩

/-- A document with an unset id. -/
def docNoId : Document := ⟨"", "r1", "k", false, "", 0, 0⟩

/-- A document with an unset revision. -/
def docNoRev : Document := ⟨"c/k", "", "k", false, "", 0, 0⟩

/-! Theorems. -/

/-- C4: There is a reachable cursor state — the zero-valued cursor produced by
`NewCursor` itself, whose `Result` is empty, `Index` 0, `More` false and
`max` 0 (never assigned) — on which `FetchOne` takes the decode branch and
evaluates `c.Result[c.Index]` with `Index ≥ len(Result)`: the access is not
guarded by a bounds check and the run panics. -/
theorem fetchOne_unguarded_index_on_empty_batch {Row : Type}
    (env : Env Row) (db : CursorDb Row) :
    ∃ c : Cursor Row, NewCursor (some db) = some c ∧ c.Index = 0 ∧
      c.Result = [] ∧ c.More = false ∧ c.max = 0 ∧
      c.FetchOne env db = .panic := by
  refine ⟨⟨"", 0, [], false, 0, false, "", 0, 0⟩, rfl, rfl, rfl, rfl, rfl, ?_⟩
  simp [Cursor.FetchOne]

/-- C9: For every cursor and every target whose reflected kind is neither
slice nor array, `FetchBatch` returns the type-mismatch error and performs
no transport call and no decode attempt, leaving the cursor unchanged. -/
theorem fetchBatch_requires_sequence_target {Row : Type} (env : Env Row)
    (db : CursorDb Row) (c : Cursor Row) (kind : GoKind)
    (h1 : kind ≠ GoKind.slice) (h2 : kind ≠ GoKind.array) :
    c.FetchBatch env db kind =
      ⟨some "Container must be Slice of array kind", c, 0, 0⟩ := by
  simp [Cursor.FetchBatch, h1, h2]

theorem fetchBatch_requires_sequence_target_witness :
    Cursor.FetchBatch cTwoRows envNat (dbStatus 0) GoKind.map_ =
      ⟨some "Container must be Slice of array kind", cTwoRows, 0, 0⟩ :=
  fetchBatch_requires_sequence_target envNat (dbStatus 0) cTwoRows GoKind.map_
    (by decide) (by decide)

/-- C6: `Exist` returns the precondition error with no transport call when
`Id` is unset; otherwise it makes exactly one read and returns `(false, nil)`
exactly on status 404 and `(true, nil)` on every other status. -/
theorem exist_spec (dbv : DocDb) (d : Document) (st : Int) (er : Option String)
    (hget : dbv.get "document" d.Id "GET" = ⟨st, er⟩) :
    (d.Id = "" → d.Exist (some dbv) =
      ⟨false, some "Document must exist or have valid _rev and _id", 0⟩) ∧
    (d.Id ≠ "" → er = none → st = 404 →
      d.Exist (some dbv) = ⟨false, none, 1⟩) ∧
    (d.Id ≠ "" → er = none → st ≠ 404 →
      d.Exist (some dbv) = ⟨true, none, 1⟩) := by
  refine ⟨fun hid => ?_, fun hid her hst => ?_, fun hid her hst => ?_⟩
  · simp [Document.Exist, hid]
  · subst her hst; simp [Document.Exist, hid, hget]
  · subst her; simp [Document.Exist, hid, hget, hst]

theorem exist_spec_witness :
    Document.Exist docNoId (some (docDbStatus 404)) =
      ⟨false, some "Document must exist or have valid _rev and _id", 0⟩ ∧
    Document.Exist docCK (some (docDbStatus 404)) = ⟨false, none, 1⟩ ∧
    Document.Exist docCK (some (docDbStatus 500)) = ⟨true, none, 1⟩ :=
  ⟨(exist_spec (docDbStatus 404) docNoId 404 none rfl).1 rfl,
   (exist_spec (docDbStatus 404) docCK 404 none rfl).2.1 (by decide) rfl rfl,
   (exist_spec (docDbStatus 500) docCK 500 none rfl).2.2 (by decide) rfl (by decide)⟩

/-- C7: `Updated` returns the precondition error with no transport call when
`Id` or `Rev` is unset; otherwise it makes exactly one conditional read and
returns `(true, nil)` exactly on status 404 or 412 and `(false, nil)` on
every other status. -/
theorem updated_spec (dbv : DocDb) (d : Document) (st : Int)
    (er : Option String)
    (hget : dbv.get "document" (d.Id ++ "?rev=" ++ d.Rev) "GET" = ⟨st, er⟩) :
    (d.Id = "" ∨ d.Rev = "" → d.Updated (some dbv) =
      ⟨false, some "Document must exist or have valid _rev and _id", 0⟩) ∧
    (d.Id ≠ "" → d.Rev ≠ "" → er = none → st = 404 ∨ st = 412 →
      d.Updated (some dbv) = ⟨true, none, 1⟩) ∧
    (d.Id ≠ "" → d.Rev ≠ "" → er = none → st ≠ 404 → st ≠ 412 →
      d.Updated (some dbv) = ⟨false, none, 1⟩) := by
  refine ⟨fun hid => ?_, fun hid hrev her hst => ?_,
          fun hid hrev her h4 h12 => ?_⟩
  · simp [Document.Updated, hid]
  · subst her
    rcases hst with hst | hst <;> subst hst <;>
      simp [Document.Updated, hid, hrev, hget]
  · subst her; simp [Document.Updated, hid, hrev, hget, h4, h12]

theorem updated_spec_witness :
    Document.Updated docNoRev (some (docDbStatus 404)) =
      ⟨false, some "Document must exist or have valid _rev and _id", 0⟩ ∧
    Document.Updated docCK (some (docDbStatus 404)) = ⟨true, none, 1⟩ ∧
    Document.Updated docCK (some (docDbStatus 412)) = ⟨true, none, 1⟩ ∧
    Document.Updated docCK (some (docDbStatus 200)) = ⟨false, none, 1⟩ :=
  ⟨(updated_spec (docDbStatus 404) docNoRev 404 none rfl).1 (Or.inr rfl),
   (updated_spec (docDbStatus 404) docCK 404 none rfl).2.1 (by decide) (by decide)
     rfl (Or.inl rfl),
   (updated_spec (docDbStatus 412) docCK 412 none rfl).2.1 (by decide) (by decide)
     rfl (Or.inr rfl),
   (updated_spec (docDbStatus 200) docCK 200 none rfl).2.2 (by decide) (by decide)
     rfl (by decide) (by decide)⟩

/-- C8: `Delete` returns `(false, nil)` with no transport call when the
cursor id is empty; with a non-empty id it makes exactly one DELETE call and
returns `(true, nil)` on status 202, `(false, nil)` on 404 or any other
status, and `(false, err)` when the transport errors. -/
theorem delete_spec {Row : Type} (db : CursorDb Row) (c : Cursor Row)
    (st : Int) (p : CursorPayload Row) (er : Option String)
    (hsend : db.send "cursor" c.Id "DELETE" = ⟨st, p, er⟩) :
    (c.Id = "" → c.Delete db = ⟨false, none, c, 0⟩) ∧
    (c.Id ≠ "" → er = none → st = 202 →
      (c.Delete db).deleted = true ∧ (c.Delete db).err = none ∧
      (c.Delete db).sends = 1) ∧
    (c.Id ≠ "" → er = none → st ≠ 202 →
      (c.Delete db).deleted = false ∧ (c.Delete db).err = none ∧
      (c.Delete db).sends = 1) ∧
    (∀ e, c.Id ≠ "" → er = some e →
      (c.Delete db).deleted = false ∧ (c.Delete db).err = some e ∧
      (c.Delete db).sends = 1) := by
  refine ⟨fun hid => ?_, fun hid her hst => ?_, fun hid her hst => ?_,
          fun e hid her => ?_⟩
  · simp [Cursor.Delete, hid]
  · subst her hst; simp [Cursor.Delete, hid, hsend]
  · subst her
    by_cases h4 : st = 404 <;>
      simp [Cursor.Delete, hid, hsend, hst, h4]
  · subst her; simp [Cursor.Delete, hid, hsend]

theorem delete_spec_witness :
    Cursor.Delete cTwoRows (dbStatus 202) = ⟨false, none, cTwoRows, 0⟩ ∧
    (Cursor.Delete cWithId (dbStatus 202)).deleted = true ∧
    (Cursor.Delete cWithId (dbStatus 404)).deleted = false ∧
    (Cursor.Delete cWithId (dbStatus 404)).err = none ∧
    (Cursor.Delete cWithId dbErr500).err = some "boom" :=
  ⟨(delete_spec (dbStatus 202) cTwoRows 202 payNat none rfl).1 rfl,
   ((delete_spec (dbStatus 202) cWithId 202 payNat none rfl).2.1 (by decide)
     rfl rfl).1,
   ((delete_spec (dbStatus 404) cWithId 404 payNat none rfl).2.2.1 (by decide)
     rfl (by decide)).1,
   ((delete_spec (dbStatus 404) cWithId 404 payNat none rfl).2.2.1 (by decide)
     rfl (by decide)).2.1,
   ((delete_spec dbErr500 cWithId 500 payNat (some "boom") rfl).2.2.2 "boom"
     (by decide) rfl).2.1⟩

/-- Helper: on a cursor whose index is inside the batch, with a codec on
which decoding succeeds, `FetchNext` decodes the row at the index and only
advances the index. -/
theorem fetchNext_decode_step {Row : Type} (env : Env Row) (db : CursorDb Row)
    (c : Cursor Row) (row : Row) (enc : Row → String)
    (hm : env.marshal = fun x => .ok (enc x))
    (hu : env.unmarshal = fun _ => none)
    (hrow : c.Result[c.Index]? = some row) :
    c.FetchNext env db =
      .ok ⟨true, none, some row, { c with Index := c.Index + 1 }, 0⟩ := by
  have hlt : c.Index < c.Result.length := by
    by_contra hge
    rw [List.getElem?_eq_none (by omega)] at hrow
    exact Option.noConfusion hrow
  simp [Cursor.FetchNext, Nat.not_le.mpr hlt, fetchNextDecode, hrow, hm, hu]

/-- C5: For a cursor with batch `[r0, r1, r2]`, `hasMore = false`, index 0, and
a codec on which every decode succeeds, three successive `FetchNext` calls
return `(true, rᵢ)` decoding each row in order, the fourth returns
`(false, nil)`, no call makes any transport request, and on an exhausted
cursor with `More = true` whose refetch answers a non-200 status without
transport error, `FetchNext` returns an error spelling out that status code. -/
theorem fetchNext_three_rows_then_exhaustion {Row : Type} (env : Env Row)
    (db : CursorDb Row) (r0 r1 r2 : Row) (c0 cc : Cursor Row)
    (enc : Row → String) (s : SendOutcome Row)
    (hm : env.marshal = fun x => .ok (enc x))
    (hu : env.unmarshal = fun _ => none)
    (hres : c0.Result = [r0, r1, r2]) (hmore : c0.More = false)
    (hidx : c0.Index = 0)
    (hcc : cc.Index ≥ cc.Result.length) (hcm : cc.More = true)
    (hs : db.send "cursor" cc.Id "PUT" = s) (hse : s.err = none)
    (hst : s.status ≠ 200) :
    c0.FetchNext env db = .ok ⟨true, none, some r0, { c0 with Index := 1 }, 0⟩ ∧
    Cursor.FetchNext { c0 with Index := 1 } env db =
      .ok ⟨true, none, some r1, { c0 with Index := 2 }, 0⟩ ∧
    Cursor.FetchNext { c0 with Index := 2 } env db =
      .ok ⟨true, none, some r2, { c0 with Index := 3 }, 0⟩ ∧
    Cursor.FetchNext { c0 with Index := 3 } env db =
      .ok ⟨false, none, none, { c0 with Index := 3 }, 0⟩ ∧
    cc.FetchNext env db =
      .ok ⟨false,
           some ("Cursor batch request returned status code of "
                  ++ toString s.status), none, cc, 1⟩ := by
  refine ⟨?_, ?_, ?_, ?_, ?_⟩
  · have := fetchNext_decode_step env db c0 r0 enc hm hu
      (by simp [hres, hidx])
    simpa [hidx] using this
  · have := fetchNext_decode_step env db { c0 with Index := 1 } r1 enc hm hu
      (by simp [hres])
    simpa using this
  · have := fetchNext_decode_step env db { c0 with Index := 2 } r2 enc hm hu
      (by simp [hres])
    simpa using this
  · simp [Cursor.FetchNext, hres, hmore]
  · simp [Cursor.FetchNext, hs, hse, if_pos hcc, hcm, hst]

theorem fetchNext_three_rows_then_exhaustion_witness :
    Cursor.FetchNext cThreeRows envNat (dbStatus 503) =
      .ok ⟨true, none, some 3, { cThreeRows with Index := 1 }, 0⟩ ∧
    Cursor.FetchNext { cThreeRows with Index := 1 } envNat (dbStatus 503) =
      .ok ⟨true, none, some 5, { cThreeRows with Index := 2 }, 0⟩ ∧
    Cursor.FetchNext { cThreeRows with Index := 2 } envNat (dbStatus 503) =
      .ok ⟨true, none, some 7, { cThreeRows with Index := 3 }, 0⟩ ∧
    Cursor.FetchNext { cThreeRows with Index := 3 } envNat (dbStatus 503) =
      .ok ⟨false, none, none, { cThreeRows with Index := 3 }, 0⟩ ∧
    Cursor.FetchNext cAtEnd envNat (dbStatus 503) =
      .ok ⟨false,
           some ("Cursor batch request returned status code of "
                  ++ toString (503 : Int)), none, cAtEnd, 1⟩ :=
  fetchNext_three_rows_then_exhaustion envNat (dbStatus 503) 3 5 7
    cThreeRows cAtEnd (fun _ => "") ⟨503, payNat, none⟩ rfl rfl rfl rfl rfl
    (by decide) rfl rfl rfl (by decide)

/-- Helper: with a codec on which every decode succeeds and no further
server-side data, the number of consecutive successful `FetchNext` calls is
exactly the number of rows left in the batch. -/
theorem fetchNextStreak_eq {Row : Type} (env : Env Row) (db : CursorDb Row)
    (enc : Row → String)
    (hm : env.marshal = fun x => .ok (enc x))
    (hu : env.unmarshal = fun _ => none) :
    ∀ (fuel : Nat) (c : Cursor Row), c.More = false →
      c.Result.length - c.Index ≤ fuel →
      fetchNextStreak env db fuel c = c.Result.length - c.Index := by
  intro fuel
  induction fuel with
  | zero =>
    intro c hmore hfuel
    simp only [fetchNextStreak]
    omega
  | succ n ih =>
    intro c hmore hfuel
    by_cases hge : c.Result.length ≤ c.Index
    · have hfn : c.FetchNext env db = .ok ⟨false, none, none, c, 0⟩ := by
        simp [Cursor.FetchNext, hge, hmore]
      rw [fetchNextStreak, hfn]
      simp only [if_neg (by simp : ¬ (false = true))]
      omega
    · push_neg at hge
      obtain ⟨row, hrow⟩ : ∃ row, c.Result[c.Index]? = some row :=
        ⟨_, List.getElem?_eq_getElem hge⟩
      have hfn := fetchNext_decode_step env db c row enc hm hu hrow
      rw [fetchNextStreak, hfn]
      simp only [if_true]
      rw [ih { c with Index := c.Index + 1 } (by simpa using hmore)
            (by simp; omega)]
      simp only
      omega

/-- C1 (amended): `max` is never assigned and stays 0, so for a cursor with a
non-empty batch, `hasMore = false`, index 0 and a codec on which every decode
succeeds, repeated `FetchOne` calls return true exactly once (decoding only
the first row: the second call already sees `Index > max`), while repeated
`FetchNext` calls return true once per row — `FetchOne` reports exhaustion
earlier than `FetchNext`, not one call later. -/
theorem fetchOne_single_success_fetchNext_full_batch {Row : Type}
    (env : Env Row) (db : CursorDb Row) (enc : Row → String)
    (hm : env.marshal = fun x => .ok (enc x))
    (hu : env.unmarshal = fun _ => none)
    (c : Cursor Row) (r : Row) (rest : List Row)
    (hres : c.Result = r :: rest) (hmore : c.More = false)
    (hidx : c.Index = 0) (hmax : c.max = 0) :
    fetchOneStreak env db (c.Result.length + 1) c = 1 ∧
    fetchNextStreak env db (c.Result.length + 1) c = c.Result.length := by
  constructor
  · have h1 : c.FetchOne env db =
        .ok ⟨true, some r, { c with Index := c.Index + 1 }, 0⟩ := by
      simp [Cursor.FetchOne, hidx, hmax, hres, hm, hu]
    have h2 : Cursor.FetchOne { c with Index := c.Index + 1 } env db =
        .ok ⟨false, none, { c with Index := c.Index + 1 }, 0⟩ := by
      simp [Cursor.FetchOne, hidx, hmax, hmore]
    rw [hres]
    simp only [List.length_cons]
    rw [fetchOneStreak, h1]
    simp only [if_pos rfl]
    rw [fetchOneStreak, h2]
    simp
  · rw [fetchNextStreak_eq env db enc hm hu (c.Result.length + 1) c hmore
        (by omega), hidx]
    omega

theorem fetchOne_single_success_witness :
    fetchOneStreak envNat (dbStatus 0)
      (cThreeRows.Result.length + 1) cThreeRows = 1 ∧
    fetchNextStreak envNat (dbStatus 0)
      (cThreeRows.Result.length + 1) cThreeRows = cThreeRows.Result.length :=
  fetchOne_single_success_fetchNext_full_batch envNat (dbStatus 0)
    (fun _ => "") rfl rfl cThreeRows 3 [5, 7] rfl rfl rfl rfl

/-- C1 (counterexample): on the cursor with batch `[10, 20]`, `hasMore =
false` and index 0, consecutive `FetchOne` calls return true once while
consecutive `FetchNext` calls return true twice — `FetchOne` does not return
true on one call more than `FetchNext` before reporting exhaustion. -/
theorem fetchOne_not_one_more_than_fetchNext :
    fetchOneStreak envNat (dbStatus 0) 3 cTwoRows = 1 ∧
    fetchNextStreak envNat (dbStatus 0) 3 cTwoRows = 2 ∧
    fetchOneStreak envNat (dbStatus 0) 3 cTwoRows ≠
      fetchNextStreak envNat (dbStatus 0) 3 cTwoRows + 1 := by
  decide

/-- Helper: the decode tail of `FetchNext` keeps the index within the batch
bounds whenever it returns (the index only advances past a successfully
accessed position). -/
theorem fetchNextDecode_inv {Row : Type} (env : Env Row) (c : Cursor Row)
    (k : Nat) (r : FetchNextResult Row)
    (hc : c.Index ≤ c.Result.length)
    (h : fetchNextDecode env c k = .ok r) :
    r.state.Index ≤ r.state.Result.length := by
  unfold fetchNextDecode at h
  split at h
  · exact absurd h (by simp)
  next row hrow =>
    have hlt : c.Index < c.Result.length := by
      by_contra hh
      rw [List.getElem?_eq_none (by omega)] at hrow
      exact Option.noConfusion hrow
    split at h
    · cases h; exact hc
    next b hb =>
      split at h
      · cases h; exact hc
      · cases h; simpa using hlt

/-- C10 (amended): the invariant `0 ≤ index ≤ len(batch)` is preserved by
every returning `FetchNext` call; `Next` preserves it only when `index = max`
or `index + 1 ≤ len(batch)` — since `max` is never assigned and stays 0,
`Next` unconditionally increments any positive in-bounds index and can push
it past `len(batch)`. -/
theorem index_invariant_amended {Row : Type} (env : Env Row)
    (db : CursorDb Row) (c c2 : Cursor Row) (r : FetchNextResult Row)
    (hinv : cursorInv c) (hnext : c.FetchNext env db = .ok r)
    (hinv2 : cursorInv c2)
    (hc2 : c2.Index = c2.max ∨ c2.Index + 1 ≤ c2.Result.length) :
    cursorInv r.state ∧ cursorInv (Cursor.Next c2).2 := by
  constructor
  · unfold cursorInv at hinv ⊢
    unfold Cursor.FetchNext at hnext
    simp only [] at hnext
    split at hnext
    · split at hnext
      · split at hnext
        · cases hnext; exact hinv
        · split at hnext
          · exact fetchNextDecode_inv env _ 1 r (Nat.zero_le _) hnext
          · cases hnext; exact hinv
      · cases hnext; exact hinv
    next hlt =>
      exact fetchNextDecode_inv env c 0 r hinv hnext
  · unfold cursorInv at hinv2 ⊢
    unfold Cursor.Next
    rcases hc2 with h | h
    · simp [h]
      exact h ▸ hinv2
    · by_cases he : c2.Index = c2.max
      · simp [he]
        exact he ▸ hinv2
      · simp [he]
        omega

theorem index_invariant_amended_witness :
    cursorInv { cTwoRows with Index := 1 } ∧
    cursorInv (Cursor.Next cThreeRows).2 :=
  index_invariant_amended envNat (dbStatus 0) cTwoRows cThreeRows
    ⟨true, none, some 10, { cTwoRows with Index := 1 }, 0⟩
    (by decide) (by decide) (by decide) (Or.inl (by decide))

/-- C10 (counterexample): the cursor with batch `[5]`, index 1 and `max` 0
satisfies the invariant, but one `Next` call pushes its index to 2, past the
batch length — `Next` does not preserve `index ≤ len(batch)`. -/
theorem next_breaks_index_invariant :
    cursorInv cOverrun ∧ ¬ cursorInv (Cursor.Next cOverrun).2 := by
  decide

/-- C3 (amended): a transport error is propagated unchanged by `Delete`,
`FetchNext`, `Updated` and `Exist`; `FetchBatch`'s inline next-batch fetch
checks the response status before the error and so propagates the transport
error only when the status is not 200 — a transport error accompanying a
200-status response is swallowed and `FetchBatch` reports success. -/
theorem transport_error_propagation_amended {Row : Type} (env : Env Row)
    (db : CursorDb Row) (gdb : DocDb) (c : Cursor Row) (d : Document)
    (e : String) (b : String) :
    ((db.send "cursor" c.Id "DELETE").err = some e → c.Id ≠ "" →
      (c.Delete db).err = some e) ∧
    ((db.send "cursor" c.Id "PUT").err = some e →
      c.Result.length ≤ c.Index → c.More = true →
      c.FetchNext env db = .ok ⟨false, some e, none, c, 1⟩) ∧
    ((gdb.get "document" (d.Id ++ "?rev=" ++ d.Rev) "GET").err = some e →
      d.Id ≠ "" → d.Rev ≠ "" → (d.Updated (some gdb)).err = some e) ∧
    ((gdb.get "document" d.Id "GET").err = some e → d.Id ≠ "" →
      (d.Exist (some gdb)).err = some e) ∧
    (env.marshalBatch c.Result = .ok b → env.unmarshalBatch b = none →
      c.More = true → (db.send "cursor" c.Id "PUT").err = some e →
      ((db.send "cursor" c.Id "PUT").status ≠ 200 →
        (c.FetchBatch env db .slice).err = some e) ∧
      ((db.send "cursor" c.Id "PUT").status = 200 →
        (c.FetchBatch env db .slice).err = none)) := by
  refine ⟨fun herr hid => ?_, fun herr hge hmore => ?_,
          fun herr hid hrev => ?_, fun herr hid => ?_,
          fun hmb hub hmore herr => ⟨fun hst => ?_, fun hst => ?_⟩⟩
  · simp [Cursor.Delete, hid, herr]
  · simp [Cursor.FetchNext, hge, hmore, herr]
  · simp [Document.Updated, hid, hrev, herr]
  · simp [Document.Exist, hid, herr]
  · simp [Cursor.FetchBatch, Cursor.HasMore, hmb, hub, hmore, herr, hst]
  · simp [Cursor.FetchBatch, Cursor.HasMore, hmb, hub, hmore, herr, hst]

theorem transport_error_propagation_witness :
    (Cursor.Delete cWithId dbErr500).err = some "boom" ∧
    Cursor.FetchNext cAtEnd envNat dbErr500 =
      .ok ⟨false, some "boom", none, cAtEnd, 1⟩ ∧
    (Document.Updated docCK (some docDbErr)).err = some "netfail" ∧
    (Document.Exist docCK (some docDbErr)).err = some "netfail" ∧
    (Cursor.FetchBatch cAtEnd envNat dbErr500 .slice).err = some "boom" ∧
    (Cursor.FetchBatch cMoreRow envNat dbBoom .slice).err = none :=
  ⟨(transport_error_propagation_amended envNat dbErr500 docDbErr cWithId
      docCK "boom" "").1 rfl (by decide),
   (transport_error_propagation_amended envNat dbErr500 docDbErr cAtEnd
      docCK "boom" "").2.1 rfl (by decide) rfl,
   (transport_error_propagation_amended envNat dbErr500 docDbErr cAtEnd
      docCK "netfail" "").2.2.1 rfl (by decide) (by decide),
   (transport_error_propagation_amended envNat dbErr500 docDbErr cAtEnd
      docCK "netfail" "").2.2.2.1 rfl (by decide),
   ((transport_error_propagation_amended envNat dbErr500 docDbErr cAtEnd
      docCK "boom" "").2.2.2.2 rfl rfl rfl rfl).1 (by decide),
   ((transport_error_propagation_amended envNat dbBoom docDbErr cMoreRow
      docCK "boom" "").2.2.2.2 rfl rfl rfl rfl).2 rfl⟩

/-- C3 (counterexample): with a transport whose PUT reports status 200
together with a transport error, `FetchBatch` on a slice target with
`hasMore = true` returns nil — the transport error is not propagated; the
call reports success. -/
theorem fetchBatch_swallows_transport_error_on_200 :
    (dbBoom.send "cursor" cMoreRow.Id "PUT").err = some "boom" ∧
    (Cursor.FetchBatch cMoreRow envNat dbBoom .slice).err = none := by
  decide

/-- Helper: splitting a separator-free character list yields one piece. -/
theorem goSplitAux_of_not_mem (sep : Char) (xs : List Char) :
    ∀ acc : List Char, sep ∉ xs →
      goSplitAux sep xs acc = [String.mk (acc.reverse ++ xs)] := by
  induction xs with
  | nil => intro acc h; simp [goSplitAux]
  | cons ch cs ih =>
    intro acc h
    rw [List.mem_cons, not_or] at h
    rw [goSplitAux, if_neg (fun hc => h.1 hc.symm), ih _ h.2]
    simp

/-- Helper: splitting past the first separator occurrence peels off one
piece. -/
theorem goSplitAux_append_sep (sep : Char) (xs : List Char) :
    ∀ (ys acc : List Char), sep ∉ xs →
      goSplitAux sep (xs ++ sep :: ys) acc
        = String.mk (acc.reverse ++ xs) :: goSplitAux sep ys [] := by
  induction xs with
  | nil =>
    intro ys acc _
    simp only [List.nil_append]
    rw [goSplitAux, if_pos rfl]
    simp
  | cons ch cs ih =>
    intro ys acc h
    rw [List.mem_cons, not_or] at h
    rw [List.cons_append, goSplitAux, if_neg (fun hc => h.1 hc.symm),
        ih _ _ h.2]
    simp

/-- Helper: the character data of `a ++ "/" ++ b`. -/
theorem data_append_slash (a b : String) :
    (a ++ "/" ++ b).data = a.data ++ '/' :: b.data := by
  simp [String.data_append]

/-- Helper: `goSplit` on an id built from two slash-free segments yields
exactly those segments. -/
theorem goSplit_pair (a b : String) (ha : '/' ∉ a.data)
    (hb : '/' ∉ b.data) : goSplit (a ++ "/" ++ b) '/' = [a, b] := by
  unfold goSplit
  rw [data_append_slash, goSplitAux_append_sep '/' a.data b.data [] ha,
      goSplitAux_of_not_mem '/' b.data [] hb]
  simp

/-- C2 (amended): `NewDocument(id)` succeeds exactly when `id` splits on '/'
into two segments, which may be empty — non-emptiness is not checked. For
slash-free `a` and `b`, `NewDocument (a ++ "/" ++ b)` yields `Id` the whole
input and `Key = b`; ids whose split does not have exactly two pieces
(including "bad" and "") fail with the format error; "collection/" and
"/key" succeed. -/
theorem newDocument_spec_amended (a b id : String)
    (ha : '/' ∉ a.data) (hb : '/' ∉ b.data)
    (hid : (goSplit id '/').length ≠ 2) :
    NewDocument (a ++ "/" ++ b) =
      .ok ⟨a ++ "/" ++ b, "", b, false, "", 0, 0⟩ ∧
    NewDocument id = .error "Invalid id" ∧
    NewDocument "collection/key" =
      .ok ⟨"collection/key", "", "key", false, "", 0, 0⟩ ∧
    NewDocument "bad" = .error "Invalid id" ∧
    NewDocument "" = .error "Invalid id" ∧
    NewDocument "collection/" =
      .ok ⟨"collection/", "", "", false, "", 0, 0⟩ ∧
    NewDocument "/key" = .ok ⟨"/key", "", "key", false, "", 0, 0⟩ := by
  refine ⟨?_, ?_, by rfl, by rfl, by rfl, by rfl, by rfl⟩
  · have hne : a ++ "/" ++ b ≠ "" := by
      intro hmt
      have h2 : (a ++ "/" ++ b).data = ("" : String).data := by rw [hmt]
      rw [data_append_slash] at h2
      simp at h2
    simp [NewDocument, goSplit_pair a b ha hb, hne]
  · simp [NewDocument, hid]

theorem newDocument_spec_amended_witness :
    NewDocument ("collection" ++ "/" ++ "key") =
      .ok ⟨"collection" ++ "/" ++ "key", "", "key", false, "", 0, 0⟩ ∧
    NewDocument "bad" = .error "Invalid id" ∧
    NewDocument "collection/key" =
      .ok ⟨"collection/key", "", "key", false, "", 0, 0⟩ ∧
    NewDocument "bad" = .error "Invalid id" ∧
    NewDocument "" = .error "Invalid id" ∧
    NewDocument "collection/" =
      .ok ⟨"collection/", "", "", false, "", 0, 0⟩ ∧
    NewDocument "/key" = .ok ⟨"/key", "", "key", false, "", 0, 0⟩ :=
  newDocument_spec_amended "collection" "key" "bad"
    (by decide) (by decide) (by decide)

/-- C2 (counterexample): `NewDocument "collection/"` — an id whose key
segment is empty — and `NewDocument "/key"` — an id whose collection segment
is empty — both succeed instead of failing with a format error. -/
theorem newDocument_accepts_empty_segments :
    NewDocument "collection/" =
      .ok ⟨"collection/", "", "", false, "", 0, 0⟩ ∧
    NewDocument "/key" = .ok ⟨"/key", "", "key", false, "", 0, 0⟩ :=
  ⟨rfl, rfl⟩

end ArangoSpec
